import Mathlib

/-!
Shallow embedding of the worktodo-queue parsing core of PrMers
(`src/io/WorktodoParser.cpp`, `src/include/io/WorktodoParser.hpp`).

Modelling conventions:
* C++ strings are Lean `String`; `uint32_t`/`uint64_t` values are `Nat`
  reduced modulo the type width at every `static_cast`; `int32_t` is `Int`
  with the range check performed by `std::stoi`.
* Throwing conversions (`std::stoul`, `std::stoi`, `std::stoull`,
  `std::stod`) are modelled by `Option`-returning functions; `none` is the
  thrown exception that the surrounding `try`/`catch` turns into a skip.
* Text printed to `stderr` (skip reasons) and `stdout` (warnings) while a
  single worktodo line is processed is collected in a `List String`.
* The external factor-validation predicate `math::Cofactor::validateFactors`
  is not part of this repository fragment; it is passed in as a parameter
  `vf : Nat → List String → Bool`.
* File contents are modelled at line granularity: a file is the list of the
  lines `std::getline` yields, each implicitly terminated by a newline.
-/

namespace Worktodo

/-- `std::isspace` for the default C locale (the six standard blanks). -/
def isSpaceC (c : Char) : Bool :=
  c = ' ' || c = '\t' || c = '\n' || c = '\x0B' || c = '\x0C' || c = '\r'

/-- `std::isdigit`. -/
def isDigitC (c : Char) : Bool :=
  '0' ≤ c && c ≤ '9'

/-- `std::isxdigit`. -/
def isXDigitC (c : Char) : Bool :=
  isDigitC c || ('a' ≤ c && c ≤ 'f') || ('A' ≤ c && c ≤ 'F')

/-- Value of a run of decimal digits. -/
def digitsVal (l : List Char) : Nat :=
  l.foldl (fun a c => a * 10 + (c.toNat - 48)) 0

/-- Two to the 32: width of `uint32_t`. -/
def pow32 : Nat := 4294967296

/-- Two to the 64: width of `unsigned long` / `uint64_t` on the LP64 targets
this program is built for. -/
def pow64 : Nat := 18446744073709551616

/-- The common front end of `strtoul`/`strtol` in base 10: skip leading
whitespace, accept one optional sign, then a maximal nonempty digit run.
Returns the sign and the (unbounded) digit value, or `none` when no digit is
found, in which case `std::stoul`/`std::stoi` throw `invalid_argument`. -/
def parseSignDigits (s : String) : Option (Bool × Nat) :=
  let l1 := (s.toList).dropWhile isSpaceC
  let p : Bool × List Char :=
    match l1 with
    | '-' :: r => (true, r)
    | '+' :: r => (false, r)
    | _ => (false, l1)
  let digs := p.2.takeWhile isDigitC
  if digs.isEmpty then none else some (p.1, digitsVal digs)

/-- `std::stoul` (unsigned long, 64 bits here): `none` models the thrown
`invalid_argument` (no digits) or `out_of_range` (digit value above
`ULONG_MAX`); a leading minus sign negates in the unsigned type. -/
def cppStoul (s : String) : Option Nat :=
  match parseSignDigits s with
  | none => none
  | some (neg, v) =>
    if pow64 ≤ v then none
    else some (if neg then (pow64 - v) % pow64 else v)

/-- `std::stoull`; identical to `std::stoul` on an LP64 target. -/
def cppStoull (s : String) : Option Nat :=
  cppStoul s

/-- `std::stoi`: like `cppStoul` but producing a signed value that must fit
in `int` (32 bits); otherwise `out_of_range` is thrown. -/
def cppStoi (s : String) : Option Int :=
  match parseSignDigits s with
  | none => none
  | some (neg, v) =>
    let x : Int := if neg then -(v : Int) else (v : Int)
    if x < -2147483648 ∨ 2147483647 < x then none else some x

/-- Truncation toward zero of the value parsed by `std::stod`, which is all
the caller (`static_cast<uint64_t>(std::stod(...))`) observes.  The model
accepts an optional sign, an integer digit run and an optional fractional
digit run; scientific notation, hex floats and infinities are not modelled
(the worktodo grammar uses plain decimal bounds), and binary `double`
rounding is ignored, which only matters above 2^53. -/
def cppStodTrunc (s : String) : Option Int :=
  let l1 := (s.toList).dropWhile isSpaceC
  let p : Bool × List Char :=
    match l1 with
    | '-' :: r => (true, r)
    | '+' :: r => (false, r)
    | _ => (false, l1)
  let digs := p.2.takeWhile isDigitC
  let rest := p.2.drop digs.length
  let frac :=
    match rest with
    | '.' :: r => r.takeWhile isDigitC
    | _ => []
  if digs.isEmpty && frac.isEmpty then none
  else some (if p.1 then -(digitsVal digs : Int) else (digitsVal digs : Int))

/-- `static_cast<uint64_t>` applied to a (truncated) `double` value.  For
negative or too-large values the C++ cast is undefined behaviour; the model
wraps, which no worktodo grammar path reaches. -/
def castU64 (x : Int) : Nat :=
  (x % (pow64 : Int)).toNat

/-- Modelled from the spec: `util::split` (`util/StringUtils.hpp`, not part
of this repository fragment) is described only as a generic tokenizer
(`split(text, delimiter) -> sequence of text`).  It is modelled as the
conventional `std::getline`-loop split: interior empty fields are preserved,
a trailing delimiter yields no trailing empty field, and the empty string
yields no fields. -/
def splitCpp (s : String) (d : Char) : List String :=
  if s.isEmpty then [] else go (s.toList) []
where
  go : List Char → List Char → List String
    | [], cur => [String.mk cur.reverse]
    | c :: rest, cur =>
      if c = d then
        String.mk cur.reverse :: (if rest.isEmpty then [] else go rest [])
      else go rest (c :: cur)

/-- `splitRespectingQuotes` (WorktodoParser.cpp lines 68-88): split on the
delimiter, except inside a double-quoted span; quote characters are kept;
the final accumulated field is appended only when nonempty. -/
def splitRespectingQuotes (s : String) (delim : Char) : List String :=
  go (s.toList) false []
where
  go : List Char → Bool → List Char → List String
    | [], _, cur => if cur.isEmpty then [] else [String.mk cur.reverse]
    | c :: rest, inQuotes, cur =>
      if c = '"' then go rest (!inQuotes) ('"' :: cur)
      else if c = delim && !inQuotes then
        String.mk cur.reverse :: go rest inQuotes []
      else go rest inQuotes (c :: cur)

/-- The trailing-whitespace trim loop at the start of `parseFactors`
(lines 95-98). -/
def trimTrailing (s : String) : String :=
  String.mk (((s.toList).reverse.dropWhile isSpaceC).reverse)

/-- `parseFactors` (lines 91-107): if the trimmed token is a double-quoted
span, split its content on commas with `util::split`; otherwise no factors. -/
def parseFactors (factorStr : String) : List String :=
  let trimmed := trimTrailing factorStr
  let l := trimmed.toList
  if 2 ≤ l.length ∧ l.head? = some '"' ∧ l.getLast? = some '"' then
    splitCpp (String.mk ((l.drop 1).dropLast)) ','
  else []

/-- `TestType` (WorktodoParser.hpp lines 10-15). -/
inductive TestType where
  | UNSUPPORTED
  | PRP
  | LL
  | PM1
deriving Repr, DecidableEq

/-- `FactoringOptions` (WorktodoParser.hpp lines 17-20). -/
structure FactoringOptions where
  B1 : Nat := 0
  B2 : Nat := 0
deriving Repr, DecidableEq

/-- `PrimalityOptions` (WorktodoParser.hpp lines 23-25). -/
structure PrimalityOptions where
  residueType : Nat := 1
deriving Repr, DecidableEq

/-- The anonymous `union { FactoringOptions factoring; PrimalityOptions
primality; }` of `WorktodoEntry`, modelled as a product so both arms are
always well defined; default values follow the member initializers of the
two structs (the evident intent; default-initializing a C++ union does not
formally run them). -/
structure EntryOptions where
  factoring : FactoringOptions := {}
  primality : PrimalityOptions := {}
deriving Repr, DecidableEq

/-- `WorktodoEntry` (WorktodoParser.hpp lines 27-44). -/
structure WorktodoEntry where
  testType : TestType := .UNSUPPORTED
  exponent : Nat := 0
  k : Nat := 0
  b : Nat := 0
  c : Int := 0
  aid : String := ""
  rawLine : String := ""
  knownFactors : List String := []
  options : EntryOptions := {}
deriving Repr, DecidableEq

/-- `WorktodoEntry::isMersenne` (hpp line 40). -/
def WorktodoEntry.isMersenne (e : WorktodoEntry) : Bool :=
  e.k == 1 && e.b == 2 && e.c == -1

/-- `WorktodoEntry::isWagstaff` (hpp line 41, whose body spells the field
`knownfactors` and uses `length()`; the evident reading is a nonempty
`knownFactors` whose first element is `"3"`). -/
def WorktodoEntry.isWagstaff (e : WorktodoEntry) : Bool :=
  e.k == 1 && e.b == 2 && e.c == 1 && e.knownFactors.head? == some "3"

/-- `isHex` (cpp lines 60-65): exactly 32 characters, all hex digits. -/
def isHex (s : String) : Bool :=
  s.length == 32 && (s.toList).all isXDigitC

/-- Result of one C++ helper call `bool f(WorktodoEntry&, vector<string>&)`:
the returned flag, the messages it printed, and the two by-reference
arguments after the call (mutation happens also on failing calls). -/
structure HelperResult where
  ok : Bool
  msgs : List String
  entry : WorktodoEntry
  parts : List String
deriving Repr, DecidableEq

/-- `parsePartsFactors` (lines 109-117): false only on an empty token list;
otherwise, when the last token parses as a quoted factor list, consume it
into `knownFactors`. -/
def parsePartsFactors (e : WorktodoEntry) (parts : List String) : HelperResult :=
  match parts.getLast? with
  | none => ⟨false, [], e, parts⟩
  | some last =>
    let kf := parseFactors last
    if kf ≠ [] then ⟨true, [], { e with knownFactors := kf }, parts.dropLast⟩
    else ⟨true, [], e, parts⟩

/-- `parseKbnc` (lines 119-132).  The four assignments run left to right, so
a conversion that throws leaves the earlier fields already written; the
validity checks run after all four assignments and print their reason. -/
def parseKbnc (e : WorktodoEntry) (kbnc : List String) : HelperResult :=
  match kbnc with
  | kS :: bS :: nS :: cS :: rest =>
    match cppStoul kS with
    | none => ⟨false, [], e, kbnc⟩
    | some kv =>
      let e1 := { e with k := kv % pow32 }
      match cppStoul bS with
      | none => ⟨false, [], e1, kbnc⟩
      | some bv =>
        let e2 := { e1 with b := bv % pow32 }
        match cppStoul nS with
        | none => ⟨false, [], e2, kbnc⟩
        | some nv =>
          let e3 := { e2 with exponent := nv % pow32 }
          match cppStoi cS with
          | none => ⟨false, [], e3, kbnc⟩
          | some cv =>
            let e4 := { e3 with c := cv }
            if e4.k = 0 ∨ e4.b < 2 ∨ e4.exponent = 0 then
              ⟨false, ["Skip: invalid k,b,n,c values"], e4, kbnc⟩
            else ⟨true, [], e4, rest⟩
  | _ => ⟨false, ["Skip: not enough parts for k,b,n,c"], e, kbnc⟩

/-- `parseExponent` (lines 134-144). -/
def parseExponent (e : WorktodoEntry) (parts : List String) : HelperResult :=
  match parts with
  | [] => ⟨false, [], e, parts⟩
  | p0 :: rest =>
    match cppStoul p0 with
    | none => ⟨false, [], e, parts⟩
    | some v =>
      let e1 := { e with exponent := v % pow32 }
      if e1.exponent = 0 then ⟨false, ["Skip: invalid exponent 0"], e1, parts⟩
      else ⟨true, [], e1, rest⟩

/-- `parseExponentOrKbnc` (lines 146-150): when the first token is the
literal `"1"`, try the k,b,n,c form first; on its failure fall back to the
exponent form on the entry and token list as the failed call left them.
The C++ reads `parts[0]` without an emptiness check (the comment above it
assumes one); an empty list is modelled as a plain failure. -/
def parseExponentOrKbnc (e : WorktodoEntry) (parts : List String) : HelperResult :=
  match parts.head? with
  | none => ⟨false, [], e, parts⟩
  | some p0 =>
    if p0 = "1" then
      let r := parseKbnc e parts
      if r.ok then r
      else
        let r2 := parseExponent r.entry r.parts
        { r2 with msgs := r.msgs ++ r2.msgs }
    else parseExponent e parts

/-- `parseMandatorySomething` (lines 152-156): require and discard one
token. -/
def parseMandatorySomething (parts : List String) : Bool × List String :=
  match parts with
  | [] => (false, [])
  | _ :: rest => (true, rest)

/-- `parseFactoringOpts` (lines 158-170): B1 via `stoull`, B2 via `stod`
cast to `uint64_t`; both run before the bound checks. -/
def parseFactoringOpts (e : WorktodoEntry) (parts : List String) : HelperResult :=
  match parts with
  | p0 :: p1 :: rest =>
    match cppStoull p0 with
    | none => ⟨false, [], e, parts⟩
    | some b1 =>
      let e1 := { e with options.factoring.B1 := b1 }
      match cppStodTrunc p1 with
      | none => ⟨false, [], e1, parts⟩
      | some d =>
        let e2 := { e1 with options.factoring.B2 := castU64 d }
        if e2.options.factoring.B1 = 0 ∨
            e2.options.factoring.B2 < e2.options.factoring.B1 then
          ⟨false, ["Skip: invalid B1,B2 values"], e2, parts⟩
        else ⟨true, [], e2, rest⟩
  | _ => ⟨false, ["Skip: not enough parts for B1,B2"], e, parts⟩

/-- The leading-placeholder drop of `parse` (lines 203-204): one leading
empty or `N/A` token is removed. -/
def dropLeadingNA : List String → List String
  | [] => []
  | p :: rest => if p = "" ∨ p = "N/A" then rest else p :: rest

/-- The assignment-id step of `parse` (lines 206-210): consume the leading
token as the AID exactly when it is 32 hex characters, or, for
PFactor/Pminus1 lines, the literal token `AID`. -/
def consumeAid (isPF isPM1 : Bool) (parts : List String) : String × List String :=
  match parts with
  | [] => ("", parts)
  | p :: rest =>
    if isHex p || ((isPF || isPM1) && p == "AID") then (p, rest)
    else ("", p :: rest)

/-- The PRP known-factors step (lines 242-249): when exactly 1, 3 or 5
tokens remain, try to consume the last one as a factor list; for a Mersenne
entry the list is then validated by the external predicate and, on success,
the residue type is forced to 5. -/
def prpFactorsStep (vf : Nat → List String → Bool) (e : WorktodoEntry)
    (parts : List String) : List String × Option (WorktodoEntry × List String) :=
  if parts.length = 1 ∨ parts.length = 3 ∨ parts.length = 5 then
    let r2 := parsePartsFactors e parts
    if ¬ r2.ok then
      (r2.msgs ++ ["Bad PRP line (bad known factors part)"], none)
    else if r2.entry.isMersenne then
      if vf r2.entry.exponent r2.entry.knownFactors then
        (r2.msgs, some ({ r2.entry with options.primality.residueType := 5 }, r2.parts))
      else (r2.msgs ++ ["Skip PRP line: invalid known factors for exponent"], none)
    else (r2.msgs, some (r2.entry, r2.parts))
  else ([], some (e, parts))

/-- The PRP tail (lines 250-269): require Mersenne or Wagstaff, discard the
advisory pair when present (the source spells the guard `parts.size >= 2`,
missing the call parentheses; modelled as the intended call), then parse an
optional explicit (base, residueType) pair: base below 2 or different from
3 rejects, a residue-type mismatch only prints a warning and the entry is
accepted with its own residue type. -/
def prpTail (e : WorktodoEntry) (parts : List String) :
    List String × Option WorktodoEntry :=
  if !e.isMersenne && !e.isWagstaff then
    (["Skip unsupported PRP line (only Mersenne and Wagstaff supported)"], none)
  else
    let parts1 := if 2 ≤ parts.length then parts.drop 2 else parts
    match parts1 with
    | p0 :: p1 :: _ =>
      match cppStoul p0 with
      | none => ([], none)
      | some bv =>
        let base := bv % pow32
        match cppStoul p1 with
        | none => ([], none)
        | some rv =>
          let rt := rv % pow32
          if base < 2 then (["Skip PRP line: invalid base < 2"], none)
          else if base ≠ 3 then (["Skip PRP line: only base 3 implemented"], none)
          else if rt ≠ e.options.primality.residueType then
            (["Warning: PRP line residue type " ++ toString rt ++
              " does not match expected " ++ toString e.options.primality.residueType],
             some e)
          else ([], some e)
    | _ => ([], some e)

/-- The `isPRP` branch of `parse` (lines 239-269). -/
def prpBranch (vf : Nat → List String → Bool) (e0 : WorktodoEntry)
    (parts : List String) : List String × Option WorktodoEntry :=
  let r1 := parseKbnc e0 parts
  if ¬ r1.ok then (r1.msgs, none)
  else
    match prpFactorsStep vf r1.entry r1.parts with
    | (m2, none) => (r1.msgs ++ m2, none)
    | (m2, some (e2, ps2)) =>
      let t := prpTail e2 ps2
      (r1.msgs ++ m2 ++ t.1, t.2)

/-- The `isLL` branch of `parse` (lines 234-238). -/
def llBranch (e0 : WorktodoEntry) (parts : List String) :
    List String × Option WorktodoEntry :=
  let r1 := parseExponent e0 parts
  if ¬ r1.ok then (r1.msgs, none)
  else
    match parseMandatorySomething r1.parts with
    | (false, _) => (r1.msgs ++ ["Bad LL line (missing how_far_factored)"], none)
    | (true, ps2) =>
      match parseMandatorySomething ps2 with
      | (false, _) => (r1.msgs ++ ["Bad LL line (missing has_been_pminus1ed)"], none)
      | (true, _) => (r1.msgs, some r1.entry)

/-- The `isPF` branch of `parse` (lines 215-225).  The final factor-list
call (written `parseMaybeFactors` in the source; the only matching
definition in the file is `parsePartsFactors`) has its return value
discarded, but its entry mutation is kept. -/
def pfactorBranch (e0 : WorktodoEntry) (parts : List String) :
    List String × Option WorktodoEntry :=
  let r1 := parseExponentOrKbnc e0 parts
  if ¬ r1.ok then (r1.msgs, none)
  else if ¬ r1.entry.isMersenne then
    (r1.msgs ++ ["Skip unsupported PFactor line (only Mersenne supported)"], none)
  else
    match parseMandatorySomething r1.parts with
    | (false, _) => (r1.msgs ++ ["Bad PFactor line (missing how_far_factored)"], none)
    | (true, ps2) =>
      match parseMandatorySomething ps2 with
      | (false, _) =>
        (r1.msgs ++ ["Bad PFactor line (missing ll_tests_saved_if_factor_found)"], none)
      | (true, ps3) =>
        let r2 := parseFactoringOpts r1.entry ps3
        if ¬ r2.ok then (r1.msgs ++ r2.msgs, none)
        else
          let r3 := parsePartsFactors r2.entry r2.parts
          (r1.msgs ++ r2.msgs, some r3.entry)

/-- The `isPM1` branch of `parse` (lines 226-233).  The final call (again
written `parseMaybeFactors`, resolved to `parsePartsFactors`) here has its
return value checked: a false return silently skips the line. -/
def pminus1Branch (e0 : WorktodoEntry) (parts : List String) :
    List String × Option WorktodoEntry :=
  let r1 := parseKbnc e0 parts
  if ¬ r1.ok then (r1.msgs, none)
  else if ¬ r1.entry.isMersenne then
    (r1.msgs ++ ["Skip unsupported Pminus1 line (only Mersenne supported)"], none)
  else
    let r2 := parseFactoringOpts r1.entry r1.parts
    if ¬ r2.ok then (r1.msgs ++ r2.msgs, none)
    else
      match parseMandatorySomething r2.parts with
      | (false, _) =>
        (r1.msgs ++ r2.msgs ++ ["Bad Pminus1 line (missing how_far_factored)"], none)
      | (true, ps2) =>
        let r3 := parsePartsFactors r2.entry ps2
        if ¬ r3.ok then (r1.msgs ++ r2.msgs ++ r3.msgs, none)
        else (r1.msgs ++ r2.msgs ++ r3.msgs, some r3.entry)

/-- One iteration of the `parse` loop (lines 185-273) on a single line: the
Line Grammar Decoder.  Returns the messages printed while the line was
processed and the accepted entry, if any (`none` means the loop continues
with the next line).  The success log line (`"Loaded ..."`) is not
modelled. -/
def decodeLine (vf : Nat → List String → Bool) (line : String) :
    List String × Option WorktodoEntry :=
  if line.isEmpty then ([], none)
  else if (line.toList).head? = some '#' then ([], none)
  else
    match splitCpp line '=' with
    | t0 :: t1 :: _ =>
      let isPRPb := t0 == "PRP" || t0 == "PRPDC"
      let isLLb := t0 == "Test" || t0 == "DoubleCheck"
      let isPFb := t0 == "PFactor"
      let isPM1b := t0 == "Pminus1"
      if isLLb || isPRPb || isPFb || isPM1b then
        let tt : TestType := if isLLb then .LL else if isPRPb then .PRP else .PM1
        let parts0 := splitRespectingQuotes t1 ','
        let parts1 := dropLeadingNA parts0
        let ar := consumeAid isPFb isPM1b parts1
        let e0 : WorktodoEntry := { testType := tt, aid := ar.1, rawLine := line }
        if isPFb then pfactorBranch e0 ar.2
        else if isPM1b then pminus1Branch e0 ar.2
        else if isLLb then llBranch e0 ar.2
        else prpBranch vf e0 ar.2
      else (["Skip unsupported test type: " ++ t0], none)
    | _ => ([], none)

/-- `WorktodoParser::parse` over the lines of an already-opened worktodo
file: return the entry of the first line the decoder accepts. -/
def parseWorktodo (vf : Nat → List String → Bool) :
    List String → Option WorktodoEntry
  | [] => none
  | l :: rest =>
    match (decodeLine vf l).2 with
    | some e => some e
    | none => parseWorktodo vf rest

/-- The scan loop of `removeFirstProcessed` (lines 292-299): returns the
`skipped` flag, the lines written to the temporary file, and the line
appended to the archive, if any. -/
def rfpGo : List String → Bool × List String × Option String
  | [] => (false, [], none)
  | l :: rest =>
    if l = "" then
      let r := rfpGo rest
      (r.1, l :: r.2.1, r.2.2)
    else (true, rest, some l)

/-- `WorktodoParser::removeFirstProcessed` (lines 281-309) on a queue file
that opens successfully, at line granularity.  The archive is `none` when
the file does not exist; opening it with `std::ios::app` creates it, so the
result always carries `some` archive content.  The temporary file and the
final remove/rename are assumed to succeed, so the queue content becomes
the copied-through lines. -/
def removeFirstProcessed (queue : List String) (archive : Option (List String)) :
    Bool × List String × Option (List String) :=
  let r := rfpGo queue
  (r.1, r.2.1, some (archive.getD [] ++ r.2.2.toList))

/-- The descriptor produced by the line `PRP=1,2,89,-1,"3"` when the external
factor validation succeeds. -/
def entC9 : WorktodoEntry :=
  { testType := .PRP, exponent := 89, k := 1, b := 2, c := -1,
    aid := "", rawLine := "PRP=1,2,89,-1,\"3\"", knownFactors := ["3"],
    options := { primality := { residueType := 5 } } }

/-- The entry state of the line `PRP=1,2,89,-1,"3"` right after its k,b,n,c
fields have been parsed, before the known-factors step runs. -/
def entC9base : WorktodoEntry :=
  { testType := .PRP, exponent := 89, k := 1, b := 2, c := -1,
    aid := "", rawLine := "PRP=1,2,89,-1,\"3\"" }

/-- The descriptor produced by the line `PRP=1,2,89,1,"3,,5"` (a Wagstaff
line whose quoted factor list has an interior empty element). -/
def entC10 : WorktodoEntry :=
  { testType := .PRP, exponent := 89, k := 1, b := 2, c := 1,
    aid := "", rawLine := "PRP=1,2,89,1,\"3,,5\"", knownFactors := ["3", "", "5"],
    options := {} }

/-- A Mersenne PRP entry as it stands when the explicit (base, residueType)
token pair of a PRP line is examined, with the default residue type 1. -/
def entW8 : WorktodoEntry :=
  { testType := .PRP, exponent := 89, k := 1, b := 2, c := -1 }

/-- The LucasLehmer descriptor produced by the line `Test=1277,70,1`; note
the k and b fields keep their defaults 0. -/
def entT : WorktodoEntry :=
  { testType := .LL, exponent := 1277, rawLine := "Test=1277,70,1" }

end Worktodo

namespace Worktodo

/-- Claim C1: on the line `Pminus1=1,2,1277,-1,1000,50000,70` — k,b,n,c and
valid bounds B1=1000, B2=50000 followed by one advisory token and no factor
list — the parser silently skips the line (no message, no descriptor): after
the advisory token is discarded the token list is empty, so the
`parsePartsFactors` call returns false and the `Pminus1` branch treats the
absent factor list as an error, contrary to the grammar comment in the
source that marks the factor list optional. -/
theorem c1_pminus1_missing_factor_list_rejected (vf : Nat → List String → Bool) :
    decodeLine vf "Pminus1=1,2,1277,-1,1000,50000,70" = ([], none) := rfl

/-- Claim C3: the line `PFactor=1277,70,5` takes the exponent-shorthand path
(first token is not "1"), which sets exponent := 1277 and leaves k, b, c at
their defaults 0, 0, 0 — so the line is rejected by the Mersenne check with
reason "Skip unsupported PFactor line (only Mersenne supported)", before the
B1,B2 bound parsing (and its "not enough parts for B1,B2" reason) is ever
reached. -/
theorem c3_pfactor_shorthand_rejected_as_nonmersenne (vf : Nat → List String → Bool) :
    decodeLine vf "PFactor=1277,70,5" =
      (["Skip unsupported PFactor line (only Mersenne supported)"], none) ∧
    (parseExponentOrKbnc { testType := .PM1, rawLine := "PFactor=1277,70,5" }
        ["1277", "70", "5"]).entry.exponent = 1277 :=
  ⟨rfl, rfl⟩

/-- Counterexample to claim C2: the accepted line `Test=1277,70,1` yields a
LucasLehmer descriptor with k = 0 and b = 0 (the defaults are never written
by the LL branch), violating the claimed invariants k ≥ 1 and b ≥ 2. -/
theorem c2_counterexample_ll_descriptor_k0_b0 :
    (parseWorktodo (fun _ _ => false) ["Test=1277,70,1"]).map
      (fun e => (e.k, e.b, e.exponent)) = some (0, 0, 1277) := rfl

/-- Counterexample to claim C4: on `PRP=1,2,89,1,0` the remaining token
count after k,b,n,c is exactly 1 and the last token "0" is not a quoted
list, yet the line is not rejected with the "bad known factors" reason: the
unquoted token is left in place, `knownFactors` stays empty, and the line is
later rejected for a different reason (neither Mersenne nor Wagstaff). -/
theorem c4_counterexample_rejects_with_other_reason :
    decodeLine (fun _ _ => false) "PRP=1,2,89,1,0" =
      (["Skip unsupported PRP line (only Mersenne and Wagstaff supported)"], none) := rfl

/-- Counterexample to claim C5: on a queue containing only a blank line and
no existing archive file, the call returns false and leaves the queue lines
unchanged, but the archive file is created (empty) because it is opened in
append mode unconditionally — it is not left absent as the claim states. -/
theorem c5_counterexample_archive_created :
    removeFirstProcessed [""] none = (false, [""], some []) := rfl

/-- Counterexample to claim C10: the line `PRP=1,2,89,1,"3,,5"` is accepted
(as a Wagstaff descriptor) with the empty string as its second known
factor — the empty element is neither rejected nor normalized. -/
theorem c10_counterexample_empty_factor_kept :
    ((decodeLine (fun _ _ => false) "PRP=1,2,89,1,\"3,,5\"").2.map
      (fun e => e.knownFactors)) = some ["3", "", "5"] := rfl

/-- Claim C10 as amended: a quoted factor list with an interior empty
element is carried through verbatim into `knownFactors` (under the
getline-style model of the external `util::split` that preserves interior
empty fields); on the Wagstaff line `PRP=1,2,89,1,"3,,5"` the descriptor is
accepted with knownFactors = ["3", "", "5"], regardless of the external
factor-validation predicate (which is consulted only for Mersenne lines). -/
theorem c10_amended_empty_factor_carried (vf : Nat → List String → Bool) :
    decodeLine vf "PRP=1,2,89,1,\"3,,5\"" = ([], some entC10) := rfl

/-- The scan loop leaves an all-blank queue unchanged and removes nothing. -/
theorem rfpGo_all_blank (queue : List String) (h : ∀ l ∈ queue, l = "") :
    rfpGo queue = (false, queue, none) := by
  induction queue with
  | nil => rfl
  | cons l rest ih =>
    have hl : l = "" := h l (List.mem_cons_self l rest)
    have hrest := ih (fun x hx => h x (List.mem_cons_of_mem l hx))
    simp [rfpGo, hl, hrest]

/-- Claim C5 as amended: on a queue file with no non-empty line the call
returns false and leaves the queue lines unchanged, and nothing is appended
to the archive; but because the archive is opened in append mode before the
scan, the archive file is created (with its previous content, empty when it
did not exist) rather than left untouched. -/
theorem c5_amended_blank_queue (queue : List String) (archive : Option (List String))
    (h : ∀ l ∈ queue, l = "") :
    removeFirstProcessed queue archive = (false, queue, some (archive.getD [])) := by
  simp [removeFirstProcessed, rfpGo_all_blank queue h]

/-- Witness for the amended claim C5 at a concrete blank queue. -/
theorem c5_amended_blank_queue_witness :
    removeFirstProcessed ["", ""] (some ["x"]) = (false, ["", ""], some ["x"]) :=
  c5_amended_blank_queue ["", ""] (some ["x"]) (by decide)

/-- The scan loop on a queue whose first non-empty line is l: the blank
prefix is copied, l is removed and reported, the suffix is copied. -/
theorem rfpGo_first_nonempty (pre post : List String) (l : String)
    (hpre : ∀ x ∈ pre, x = "") (hl : l ≠ "") :
    rfpGo (pre ++ l :: post) = (true, pre ++ post, some l) := by
  induction pre with
  | nil => simp [rfpGo, hl]
  | cons x pre ih =>
    have hx : x = "" := hpre x (List.mem_cons_self x pre)
    have h2 := ih (fun y hy => hpre y (List.mem_cons_of_mem x hy))
    simp [rfpGo, hx, h2]

/-- Claim C6: for a queue with at least one non-empty line (written as an
all-blank prefix `pre`, the first non-empty line `l`, and the remainder
`post`), the very string `l` that is removed from the queue is the one
appended to the archive — byte for byte, trailing whitespace included — and
every other line, the blank ones before `l` included, is carried over to the
rewritten queue file in order. -/
theorem c6_removed_line_equals_archived_line (archive : Option (List String))
    (pre post : List String) (l : String)
    (hpre : ∀ x ∈ pre, x = "") (hl : l ≠ "") :
    removeFirstProcessed (pre ++ l :: post) archive =
      (true, pre ++ post, some (archive.getD [] ++ [l])) := by
  simp [removeFirstProcessed, rfpGo_first_nonempty pre post l hpre hl]

/-- Witness for claim C6 at a concrete queue and archive. -/
theorem c6_removed_line_equals_archived_line_witness :
    removeFirstProcessed ["", "a", "b"] (some ["x"]) =
      (true, ["", "b"], some ["x", "a"]) :=
  c6_removed_line_equals_archived_line (some ["x"]) [""] ["b"] "a"
    (by decide) (by decide)

/-- Claim C7: a leading payload token is consumed as the assignment id
exactly when it has exactly 32 characters that are all hexadecimal digits,
or, on PFactor/Pminus1 lines only, when it is the literal token `AID`; any
other token — a 31- or 33-character hex string included — is left in place
for normal field parsing. -/
theorem c7_aid_consumed_iff (isPF isPM1 : Bool) (p : String) (rest : List String) :
    consumeAid isPF isPM1 (p :: rest) =
      if (p.length = 32 ∧ ∀ c ∈ p.toList, isXDigitC c = true) ∨
          ((isPF = true ∨ isPM1 = true) ∧ p = "AID") then (p, rest)
      else ("", p :: rest) := by
  have hiff : (isHex p || ((isPF || isPM1) && p == "AID")) = true ↔
      ((p.length = 32 ∧ ∀ c ∈ p.toList, isXDigitC c = true) ∨
        ((isPF = true ∨ isPM1 = true) ∧ p = "AID")) := by
    simp [isHex, List.all_eq_true]
  simp only [consumeAid]
  split_ifs with h1 h2 h3
  · rfl
  · exact absurd (hiff.mp h1) h2
  · exact absurd h1 (fun hn => hn (hiff.mpr h3))
  · rfl

/-- Claim C8: when the explicit trailing (base, residueType) token pair of a
PRP/PRPDC line parses with base = 3 and the residue-type token disagrees
with the residue type the descriptor already carries, the line is still
accepted with the descriptor unchanged (its own residue type kept) and the
only effect of the mismatch is a printed warning. -/
theorem c8_residue_mismatch_is_warning_only (e : WorktodoEntry)
    (parts : List String) (p0 p1 : String) (rest : List String) (bv rv : Nat)
    (hmw : (e.isMersenne || e.isWagstaff) = true)
    (hps : (if 2 ≤ parts.length then parts.drop 2 else parts) = p0 :: p1 :: rest)
    (hb : cppStoul p0 = some bv) (hbase : bv % pow32 = 3)
    (hr : cppStoul p1 = some rv)
    (hne : rv % pow32 ≠ e.options.primality.residueType) :
    prpTail e parts =
      (["Warning: PRP line residue type " ++ toString (rv % pow32) ++
        " does not match expected " ++ toString e.options.primality.residueType],
       some e) := by
  have hg : (!e.isMersenne && !e.isWagstaff) = false := by
    rcases Bool.or_eq_true_iff.mp hmw with h | h <;> simp [h]
  rw [prpTail, hg]
  simp only [Bool.false_eq_true, if_false]
  rw [hps]
  simp only [hb, hr, hbase]
  rw [if_neg (by omega), if_neg (by omega), if_pos hne]

/-- Witness for claim C8 at a concrete Mersenne PRP entry and token list. -/
theorem c8_residue_mismatch_is_warning_only_witness :
    prpTail entW8 ["70", "2", "3", "4"] =
      (["Warning: PRP line residue type 4 does not match expected 1"], some entW8) :=
  c8_residue_mismatch_is_warning_only entW8 ["70", "2", "3", "4"] "3" "4" [] 3 4
    (by decide) (by decide) rfl (by decide) rfl (by decide)

/-- Evaluation of the whole decoder on the example Mersenne cofactor line
`PRP=1,2,89,-1,"3"`: the result is a function of the external predicate at
(89, ["3"]) — acceptance with residue type 5 when it holds, a skip with the
invalid-known-factors reason when it does not. -/
theorem decodeLine_mersenne_cofactor_example (vf : Nat → List String → Bool) :
    (vf 89 ["3"] = true →
      decodeLine vf "PRP=1,2,89,-1,\"3\"" = ([], some entC9)) ∧
    (vf 89 ["3"] = false →
      decodeLine vf "PRP=1,2,89,-1,\"3\"" =
        (["Skip PRP line: invalid known factors for exponent"], none)) := by
  have h2 : prpFactorsStep vf
      { testType := .PRP, exponent := 89, k := 1, b := 2, c := -1,
        aid := "", rawLine := "PRP=1,2,89,-1,\"3\"" } ["\"3\""] =
      (if vf 89 ["3"] then ([], some (entC9, ([] : List String)))
      else (["Skip PRP line: invalid known factors for exponent"], none)) := rfl
  constructor <;> intro h
  · rw [h] at h2
    simp only [if_true] at h2
    show prpBranch vf
      { testType := .PRP, aid := "", rawLine := "PRP=1,2,89,-1,\"3\"" }
      ["1", "2", "89", "-1", "\"3\""] = ([], some entC9)
    rw [prpBranch]
    rw [show parseKbnc
        { testType := .PRP, aid := "", rawLine := "PRP=1,2,89,-1,\"3\"" }
        ["1", "2", "89", "-1", "\"3\""] =
      (⟨true, [],
        { testType := .PRP, exponent := 89, k := 1, b := 2, c := -1,
          aid := "", rawLine := "PRP=1,2,89,-1,\"3\"" }, ["\"3\""]⟩ : HelperResult)
      from rfl]
    rw [h2]
    rfl
  · rw [h] at h2
    simp only [Bool.false_eq_true, if_false] at h2
    show prpBranch vf
      { testType := .PRP, aid := "", rawLine := "PRP=1,2,89,-1,\"3\"" }
      ["1", "2", "89", "-1", "\"3\""] =
      (["Skip PRP line: invalid known factors for exponent"], none)
    rw [prpBranch]
    rw [show parseKbnc
        { testType := .PRP, aid := "", rawLine := "PRP=1,2,89,-1,\"3\"" }
        ["1", "2", "89", "-1", "\"3\""] =
      (⟨true, [],
        { testType := .PRP, exponent := 89, k := 1, b := 2, c := -1,
          aid := "", rawLine := "PRP=1,2,89,-1,\"3\"" }, ["\"3\""]⟩ : HelperResult)
      from rfl]
    rw [h2]
    rfl

/-- Claim C9: for every PRP/PRPDC entry with Mersenne parameters whose
remaining token count is 1, 3 or 5 and whose last token parses as a quoted
known-factors list, the known-factors step hands the entry's exponent and
the parsed factor list to the external factor-validation predicate: when the
predicate rejects, the step fails with the invalid-known-factors reason (and
the branch then skips the whole line), and when it accepts, the factors are
consumed and the residue type is forced to 5.  In particular, on the example
line `PRP=1,2,89,-1,"3"` the decoder returns the Mersenne descriptor with
exponent 89, knownFactors ["3"] and residue type 5 exactly when the
predicate accepts (89, ["3"]), and skips the line with the
invalid-known-factors reason when it rejects. -/
theorem c9_prp_mersenne_factor_validation (vf : Nat → List String → Bool)
    (e : WorktodoEntry) (parts : List String) (last : String)
    (hlen : parts.length = 1 ∨ parts.length = 3 ∨ parts.length = 5)
    (hlast : parts.getLast? = some last)
    (hkf : parseFactors last ≠ [])
    (hM : e.isMersenne = true) :
    (prpFactorsStep vf e parts =
      if vf e.exponent (parseFactors last) then
        ([], some ({ e with knownFactors := parseFactors last, options.primality.residueType := 5 }, parts.dropLast))
      else (["Skip PRP line: invalid known factors for exponent"], none)) ∧
    (vf 89 ["3"] = true →
      decodeLine vf "PRP=1,2,89,-1,\"3\"" = ([], some entC9)) ∧
    (vf 89 ["3"] = false →
      decodeLine vf "PRP=1,2,89,-1,\"3\"" =
        (["Skip PRP line: invalid known factors for exponent"], none)) := by
  refine ⟨?_, (decodeLine_mersenne_cofactor_example vf).1,
    (decodeLine_mersenne_cofactor_example vf).2⟩
  have hr2 : parsePartsFactors e parts =
      ⟨true, [], { e with knownFactors := parseFactors last }, parts.dropLast⟩ := by
    unfold parsePartsFactors
    rw [hlast]
    dsimp only
    rw [if_pos hkf]
  have hM2 : ({ e with knownFactors := parseFactors last } : WorktodoEntry).isMersenne
      = true := hM
  unfold prpFactorsStep
  rw [if_pos hlen, hr2]
  dsimp only
  rw [if_neg (by simp), if_pos hM2]
  rfl

/-- Witness for claim C9 at the example line: its post-k,b,n,c entry and
token list, with an accepting validation predicate. -/
theorem c9_prp_mersenne_factor_validation_witness :
    prpFactorsStep (fun _ _ => true) entC9base ["\"3\""] = ([], some (entC9, [])) ∧
    decodeLine (fun _ _ => true) "PRP=1,2,89,-1,\"3\"" = ([], some entC9) :=
  ⟨(c9_prp_mersenne_factor_validation (fun _ _ => true) entC9base ["\"3\""] "\"3\""
      (Or.inl rfl) rfl (by decide) (by decide)).1,
   (c9_prp_mersenne_factor_validation (fun _ _ => true) entC9base ["\"3\""] "\"3\""
      (Or.inl rfl) rfl (by decide) (by decide)).2.1 rfl⟩

end Worktodo

namespace Worktodo

theorem parseKbnc_ok_inv (e : WorktodoEntry) (ps : List String) (r : HelperResult)
    (hr : parseKbnc e ps = r) (h : r.ok = true) :
    1 ≤ r.entry.k ∧ 2 ≤ r.entry.b ∧ 1 ≤ r.entry.exponent ∧
    r.entry.testType = e.testType := by
  unfold parseKbnc at hr
  repeat' split at hr
  all_goals subst hr
  all_goals simp_all [pow32]
  split at h
  · simp at h
  · rename_i hcond
    simp only [if_neg hcond]
    simp_all
    omega

theorem parseKbnc_testType (e : WorktodoEntry) (ps : List String) :
    (parseKbnc e ps).entry.testType = e.testType := by
  unfold parseKbnc
  repeat' split
  all_goals dsimp only
  all_goals try split_ifs
  all_goals simp

theorem parseExponent_ok_inv (e : WorktodoEntry) (ps : List String) (r : HelperResult)
    (hr : parseExponent e ps = r) (h : r.ok = true) :
    1 ≤ r.entry.exponent ∧ r.entry.k = e.k ∧ r.entry.b = e.b ∧
    r.entry.testType = e.testType := by
  unfold parseExponent at hr
  repeat' split at hr
  all_goals subst hr
  all_goals simp_all [pow32]
  split at h
  · simp at h
  · rename_i hcond
    simp only [if_neg hcond]
    simp_all
    omega

theorem parseExponentOrKbnc_ok_inv (e : WorktodoEntry) (ps : List String)
    (r : HelperResult) (hr : parseExponentOrKbnc e ps = r) (h : r.ok = true) :
    1 ≤ r.entry.exponent ∧ r.entry.testType = e.testType := by
  rcases hhead : ps.head? with _ | p0
  · unfold parseExponentOrKbnc at hr
    simp only [hhead] at hr
    subst hr
    simp at h
  · unfold parseExponentOrKbnc at hr
    simp only [hhead] at hr
    by_cases h1 : p0 = "1"
    · rw [if_pos h1] at hr
      by_cases h2 : (parseKbnc e ps).ok = true
      · rw [if_pos h2] at hr
        subst hr
        have h3 := parseKbnc_ok_inv e ps _ rfl h
        exact ⟨h3.2.2.1, h3.2.2.2⟩
      · rw [if_neg h2] at hr
        subst hr
        simp only at h
        have h3 := parseExponent_ok_inv (parseKbnc e ps).entry (parseKbnc e ps).parts _ rfl h
        refine ⟨h3.1, ?_⟩
        simp only
        rw [h3.2.2.2, parseKbnc_testType]
    · rw [if_neg h1] at hr
      subst hr
      have h3 := parseExponent_ok_inv e ps _ rfl h
      exact ⟨h3.1, h3.2.2.2⟩

theorem parseFactoringOpts_preserves (e : WorktodoEntry) (ps : List String) :
    (parseFactoringOpts e ps).entry.k = e.k ∧ (parseFactoringOpts e ps).entry.b = e.b ∧
    (parseFactoringOpts e ps).entry.exponent = e.exponent ∧
    (parseFactoringOpts e ps).entry.testType = e.testType := by
  unfold parseFactoringOpts
  repeat' split
  all_goals dsimp only
  all_goals try split_ifs
  all_goals simp

theorem parsePartsFactors_preserves (e : WorktodoEntry) (ps : List String) :
    (parsePartsFactors e ps).entry.k = e.k ∧ (parsePartsFactors e ps).entry.b = e.b ∧
    (parsePartsFactors e ps).entry.exponent = e.exponent ∧
    (parsePartsFactors e ps).entry.testType = e.testType := by
  unfold parsePartsFactors
  repeat' split
  all_goals dsimp only
  all_goals try split_ifs
  all_goals simp

theorem isMersenne_kb (e : WorktodoEntry) (h : e.isMersenne = true) :
    e.k = 1 ∧ e.b = 2 := by
  simp [WorktodoEntry.isMersenne] at h
  tauto

theorem isWagstaff_kb (e : WorktodoEntry) (h : e.isWagstaff = true) :
    e.k = 1 ∧ e.b = 2 := by
  simp [WorktodoEntry.isWagstaff] at h
  tauto

end Worktodo

namespace Worktodo

theorem parseFactoringOpts_entry_k (e : WorktodoEntry) (ps : List String) :
    (parseFactoringOpts e ps).entry.k = e.k := (parseFactoringOpts_preserves e ps).1

theorem parseFactoringOpts_entry_b (e : WorktodoEntry) (ps : List String) :
    (parseFactoringOpts e ps).entry.b = e.b := (parseFactoringOpts_preserves e ps).2.1

theorem parseFactoringOpts_entry_exponent (e : WorktodoEntry) (ps : List String) :
    (parseFactoringOpts e ps).entry.exponent = e.exponent :=
  (parseFactoringOpts_preserves e ps).2.2.1

theorem parseFactoringOpts_entry_testType (e : WorktodoEntry) (ps : List String) :
    (parseFactoringOpts e ps).entry.testType = e.testType :=
  (parseFactoringOpts_preserves e ps).2.2.2

theorem parsePartsFactors_entry_k (e : WorktodoEntry) (ps : List String) :
    (parsePartsFactors e ps).entry.k = e.k := (parsePartsFactors_preserves e ps).1

theorem parsePartsFactors_entry_b (e : WorktodoEntry) (ps : List String) :
    (parsePartsFactors e ps).entry.b = e.b := (parsePartsFactors_preserves e ps).2.1

theorem parsePartsFactors_entry_exponent (e : WorktodoEntry) (ps : List String) :
    (parsePartsFactors e ps).entry.exponent = e.exponent :=
  (parsePartsFactors_preserves e ps).2.2.1

theorem parsePartsFactors_entry_testType (e : WorktodoEntry) (ps : List String) :
    (parsePartsFactors e ps).entry.testType = e.testType :=
  (parsePartsFactors_preserves e ps).2.2.2

theorem prpFactorsStep_some_inv (vf : Nat → List String → Bool) (e : WorktodoEntry)
    (ps m : List String) (e2 : WorktodoEntry) (ps2 : List String)
    (h : prpFactorsStep vf e ps = (m, some (e2, ps2))) :
    e2.k = e.k ∧ e2.b = e.b ∧ e2.exponent = e.exponent ∧ e2.testType = e.testType := by
  unfold prpFactorsStep at h
  dsimp only at h
  repeat' split at h
  all_goals simp_all [parsePartsFactors_entry_k, parsePartsFactors_entry_b,
    parsePartsFactors_entry_exponent, parsePartsFactors_entry_testType]
  all_goals obtain ⟨-, he2, -⟩ := h
  all_goals subst he2
  all_goals simp [parsePartsFactors_entry_k, parsePartsFactors_entry_b,
    parsePartsFactors_entry_exponent, parsePartsFactors_entry_testType]

theorem prpTail_some_inv (e : WorktodoEntry) (ps m : List String) (e2 : WorktodoEntry)
    (h : prpTail e ps = (m, some e2)) :
    e2 = e ∧ (e.isMersenne || e.isWagstaff) = true := by
  unfold prpTail at h
  split at h
  · simp at h
  · rename_i hguard
    have hmw : (e.isMersenne || e.isWagstaff) = true := by
      cases hM : e.isMersenne <;> cases hW : e.isWagstaff <;> simp_all
    refine ⟨?_, hmw⟩
    dsimp only at h
    repeat' split at h
    all_goals simp_all

theorem llBranch_some_inv (e0 : WorktodoEntry) (ps : List String) (e : WorktodoEntry)
    (h : (llBranch e0 ps).2 = some e) :
    1 ≤ e.exponent ∧ e.k = e0.k ∧ e.b = e0.b ∧ e.testType = e0.testType := by
  unfold llBranch at h
  dsimp only at h
  split at h
  · simp at h
  · rename_i hok
    rw [not_not] at hok
    have h3 := parseExponent_ok_inv e0 ps _ rfl hok
    repeat' split at h
    all_goals simp_all

theorem pfactorBranch_some_inv (e0 : WorktodoEntry) (ps : List String) (e : WorktodoEntry)
    (h : (pfactorBranch e0 ps).2 = some e) :
    1 ≤ e.exponent ∧ e.k = 1 ∧ e.b = 2 ∧ e.testType = e0.testType := by
  unfold pfactorBranch at h
  dsimp only at h
  split at h
  · simp at h
  · rename_i hok
    rw [not_not] at hok
    have hEK := parseExponentOrKbnc_ok_inv e0 ps _ rfl hok
    split at h
    · simp at h
    · rename_i hM
      rw [not_not] at hM
      have hkb := isMersenne_kb _ hM
      repeat' split at h
      all_goals simp_all [parseFactoringOpts_entry_k, parseFactoringOpts_entry_b,
        parseFactoringOpts_entry_exponent, parseFactoringOpts_entry_testType,
        parsePartsFactors_entry_k, parsePartsFactors_entry_b,
        parsePartsFactors_entry_exponent, parsePartsFactors_entry_testType]
      all_goals subst h
      all_goals simp_all [parseFactoringOpts_entry_k, parseFactoringOpts_entry_b,
        parseFactoringOpts_entry_exponent, parseFactoringOpts_entry_testType,
        parsePartsFactors_entry_k, parsePartsFactors_entry_b,
        parsePartsFactors_entry_exponent, parsePartsFactors_entry_testType]

theorem pminus1Branch_some_inv (e0 : WorktodoEntry) (ps : List String) (e : WorktodoEntry)
    (h : (pminus1Branch e0 ps).2 = some e) :
    1 ≤ e.exponent ∧ e.k = 1 ∧ e.b = 2 ∧ e.testType = e0.testType := by
  unfold pminus1Branch at h
  dsimp only at h
  split at h
  · simp at h
  · rename_i hok
    rw [not_not] at hok
    have hK := parseKbnc_ok_inv e0 ps _ rfl hok
    split at h
    · simp at h
    · rename_i hM
      rw [not_not] at hM
      have hkb := isMersenne_kb _ hM
      repeat' split at h
      all_goals simp_all [parseFactoringOpts_entry_k, parseFactoringOpts_entry_b,
        parseFactoringOpts_entry_exponent, parseFactoringOpts_entry_testType,
        parsePartsFactors_entry_k, parsePartsFactors_entry_b,
        parsePartsFactors_entry_exponent, parsePartsFactors_entry_testType]
      all_goals subst h
      all_goals simp_all [parseFactoringOpts_entry_k, parseFactoringOpts_entry_b,
        parseFactoringOpts_entry_exponent, parseFactoringOpts_entry_testType,
        parsePartsFactors_entry_k, parsePartsFactors_entry_b,
        parsePartsFactors_entry_exponent, parsePartsFactors_entry_testType]

theorem prpBranch_some_inv (vf : Nat → List String → Bool) (e0 : WorktodoEntry)
    (ps : List String) (e : WorktodoEntry)
    (h : (prpBranch vf e0 ps).2 = some e) :
    1 ≤ e.exponent ∧ e.k = 1 ∧ e.b = 2 ∧ e.testType = e0.testType := by
  unfold prpBranch at h
  dsimp only at h
  split at h
  · simp at h
  · rename_i hok
    rw [not_not] at hok
    have hK := parseKbnc_ok_inv e0 ps _ rfl hok
    split at h
    · simp at h
    · rename_i m2 e2 ps2 heq
      have hstep := prpFactorsStep_some_inv vf _ _ m2 e2 ps2 heq
      dsimp only at h
      rcases htail : prpTail e2 ps2 with ⟨m3, res⟩
      rw [htail] at h
      dsimp only at h
      rcases res with _ | e3
      · simp at h
      · have htl := prpTail_some_inv e2 ps2 m3 e3 htail
        simp only [Option.some.injEq] at h
        subst h
        rcases Bool.or_eq_true_iff.mp htl.2 with hmw | hmw
        · have := isMersenne_kb _ hmw
          constructor
          · rw [htl.1, hstep.2.2.1]; exact hK.2.2.1
          · exact ⟨by rw [htl.1]; exact this.1, by rw [htl.1]; exact this.2,
              by rw [htl.1, hstep.2.2.2]; exact hK.2.2.2⟩
        · have := isWagstaff_kb _ hmw
          constructor
          · rw [htl.1, hstep.2.2.1]; exact hK.2.2.1
          · exact ⟨by rw [htl.1]; exact this.1, by rw [htl.1]; exact this.2,
              by rw [htl.1, hstep.2.2.2]; exact hK.2.2.2⟩

end Worktodo

namespace Worktodo

theorem decodeLine_some_inv (vf : Nat → List String → Bool) (line : String)
    (e : WorktodoEntry) (h : (decodeLine vf line).2 = some e) :
    1 ≤ e.exponent ∧
    ((e.testType = .PRP ∨ e.testType = .PM1) → 1 ≤ e.k ∧ 2 ≤ e.b) ∧
    (e.testType = .LL → e.k = 0 ∧ e.b = 0) := by
  unfold decodeLine at h
  split at h
  · simp at h
  · split at h
    · simp at h
    · split at h
      · dsimp only at h
        split at h
        · split at h
          · -- PFactor dispatch
            rename_i hor hpf
            have ht0 := eq_of_beq hpf
            subst ht0
            have hinv := pfactorBranch_some_inv _ _ _ h
            have ht : e.testType = TestType.PM1 := by
              rw [hinv.2.2.2]
              try rfl
            refine ⟨hinv.1, fun _ => by simp [hinv.2.1, hinv.2.2.1], fun hLL => ?_⟩
            rw [ht] at hLL
            simp at hLL
          · split at h
            · -- Pminus1 dispatch
              rename_i hor hpf hpm1
              have ht0 := eq_of_beq hpm1
              subst ht0
              have hinv := pminus1Branch_some_inv _ _ _ h
              have ht : e.testType = TestType.PM1 := by
                rw [hinv.2.2.2]
                try rfl
              refine ⟨hinv.1, fun _ => by simp [hinv.2.1, hinv.2.2.1], fun hLL => ?_⟩
              rw [ht] at hLL
              simp at hLL
            · split at h
              · -- LL dispatch
                rename_i hor hpf hpm1 hll
                have hinv := llBranch_some_inv _ _ _ h
                have ht : e.testType = TestType.LL := by
                  rw [hinv.2.2.2]
                  try simp [hll]
                refine ⟨hinv.1, fun hP => ?_,
                  fun _ => ⟨by simp [hinv.2.1], by simp [hinv.2.2.1]⟩⟩
                rw [ht] at hP
                simp at hP
              · -- PRP dispatch
                rename_i hor hpf hpm1 hll
                have hinv := prpBranch_some_inv _ _ _ _ h
                have hL := eq_false_of_ne_true hll
                have hPF := eq_false_of_ne_true hpf
                have hPM := eq_false_of_ne_true hpm1
                rw [hL, hPF, hPM] at hor
                simp only [Bool.false_or, Bool.or_false] at hor
                have ht : e.testType = TestType.PRP := by
                  rw [hinv.2.2.2]
                  simp [hor]
                refine ⟨hinv.1, fun _ => by simp [hinv.2.1, hinv.2.2.1], fun hLL => ?_⟩
                rw [ht] at hLL
                simp at hLL
        · simp at h
      · simp at h

/-- Claim C2 as amended: every descriptor returned by parse has exponent at
least 1; descriptors of PRP/PRPDC, PFactor and Pminus1 lines (the kinds
whose branches write k and b) also satisfy k = 1 ≥ 1 and b = 2 ≥ 2 (they
must be Mersenne or Wagstaff to be accepted); but LucasLehmer descriptors
from Test/DoubleCheck lines keep the defaults k = 0 and b = 0, so the
claimed invariants k ≥ 1 and b ≥ 2 hold for every returned kind except
LucasLehmer. -/
theorem c2_amended_descriptor_invariants (vf : Nat → List String → Bool)
    (lines : List String) (e : WorktodoEntry)
    (h : parseWorktodo vf lines = some e) :
    1 ≤ e.exponent ∧
    ((e.testType = .PRP ∨ e.testType = .PM1) → 1 ≤ e.k ∧ 2 ≤ e.b) ∧
    (e.testType = .LL → e.k = 0 ∧ e.b = 0) := by
  induction lines with
  | nil => simp [parseWorktodo] at h
  | cons l rest ih =>
    rw [parseWorktodo] at h
    rcases hd : (decodeLine vf l).2 with _ | e2
    · rw [hd] at h
      exact ih h
    · rw [hd] at h
      simp only [Option.some.injEq] at h
      subst h
      exact decodeLine_some_inv vf l e2 hd

/-- Witness for the amended claim C2 at the accepted line Test=1277,70,1. -/
theorem c2_amended_descriptor_invariants_witness :
    1 ≤ entT.exponent ∧
    ((entT.testType = .PRP ∨ entT.testType = .PM1) → 1 ≤ entT.k ∧ 2 ≤ entT.b) ∧
    (entT.testType = .LL → entT.k = 0 ∧ entT.b = 0) :=
  c2_amended_descriptor_invariants (fun _ _ => true) ["Test=1277,70,1"] entT rfl

end Worktodo

namespace Worktodo

theorem parsePartsFactors_msgs (e : WorktodoEntry) (ps : List String) :
    (parsePartsFactors e ps).msgs = [] := by
  unfold parsePartsFactors
  repeat' split
  all_goals dsimp only
  all_goals try split_ifs
  all_goals rfl

theorem parsePartsFactors_ok (e : WorktodoEntry) (ps : List String) (h : ps ≠ []) :
    (parsePartsFactors e ps).ok = true := by
  unfold parsePartsFactors
  rcases hl : ps.getLast? with _ | last
  · have h2 := List.getLast?_isSome.mpr h
    rw [hl] at h2
    simp at h2
  · dsimp only
    split <;> rfl

theorem parseKbnc_no_bad (e : WorktodoEntry) (ps : List String) :
    "Bad PRP line (bad known factors part)" ∉ (parseKbnc e ps).msgs := by
  unfold parseKbnc
  repeat' split
  all_goals try dsimp only
  all_goals try split_ifs
  all_goals try dsimp only
  all_goals decide

theorem parseExponent_no_bad (e : WorktodoEntry) (ps : List String) :
    "Bad PRP line (bad known factors part)" ∉ (parseExponent e ps).msgs := by
  unfold parseExponent
  repeat' split
  all_goals try dsimp only
  all_goals try split_ifs
  all_goals try dsimp only
  all_goals decide

theorem parseFactoringOpts_no_bad (e : WorktodoEntry) (ps : List String) :
    "Bad PRP line (bad known factors part)" ∉ (parseFactoringOpts e ps).msgs := by
  unfold parseFactoringOpts
  repeat' split
  all_goals try dsimp only
  all_goals try split_ifs
  all_goals try dsimp only
  all_goals decide

theorem parseExponentOrKbnc_no_bad (e : WorktodoEntry) (ps : List String) :
    "Bad PRP line (bad known factors part)" ∉ (parseExponentOrKbnc e ps).msgs := by
  unfold parseExponentOrKbnc
  dsimp only
  split
  · simp
  · split_ifs with h1 h2
    · exact parseKbnc_no_bad e ps
    · dsimp only
      intro hmem
      rcases List.mem_append.mp hmem with hA | hB
      · exact parseKbnc_no_bad e ps hA
      · exact parseExponent_no_bad _ _ hB
    · exact parseExponent_no_bad e ps

theorem prpFactorsStep_none_no_bad (vf : Nat → List String → Bool)
    (e : WorktodoEntry) (ps m : List String)
    (h : prpFactorsStep vf e ps = (m, none)) :
    "Bad PRP line (bad known factors part)" ∉ m := by
  unfold prpFactorsStep at h
  dsimp only at h
  split at h
  · rename_i hlen
    split at h
    · rename_i hok
      have hne : ps ≠ [] := by
        intro hnil
        subst hnil
        simp at hlen
      exact absurd (parsePartsFactors_ok e ps hne) hok
    · split at h
      · split at h
        · simp at h
        · simp only [Prod.mk.injEq] at h
          obtain ⟨hm, -⟩ := h
          rw [← hm]
          simp [parsePartsFactors_msgs]
      · simp at h
  · simp at h

theorem prpFactorsStep_some_msgs (vf : Nat → List String → Bool)
    (e : WorktodoEntry) (ps m : List String) (x : WorktodoEntry × List String)
    (h : prpFactorsStep vf e ps = (m, some x)) : m = [] := by
  unfold prpFactorsStep at h
  dsimp only at h
  repeat' split at h
  all_goals simp_all [parsePartsFactors_msgs]

theorem prpTail_none_no_bad (e : WorktodoEntry) (ps m : List String)
    (h : prpTail e ps = (m, none)) :
    "Bad PRP line (bad known factors part)" ∉ m := by
  unfold prpTail at h
  split at h
  · simp only [Prod.mk.injEq] at h
    obtain ⟨hm, -⟩ := h
    rw [← hm]
    decide
  · dsimp only at h
    repeat' split at h
    all_goals simp only [Prod.mk.injEq] at h
    all_goals try exact absurd h.2 (Option.some_ne_none _)
    all_goals rw [← h.1]
    all_goals decide

end Worktodo

namespace Worktodo

theorem llBranch_no_bad (e0 : WorktodoEntry) (ps m : List String)
    (res : Option WorktodoEntry) (h : llBranch e0 ps = (m, res)) :
    "Bad PRP line (bad known factors part)" ∉ m := by
  unfold llBranch at h
  dsimp only at h
  repeat' split at h
  all_goals simp only [Prod.mk.injEq] at h
  all_goals rw [← h.1]
  all_goals intro hmem
  all_goals try simp only [List.mem_append, List.mem_singleton] at hmem
  all_goals try casesm* _ ∨ _
  all_goals first
    | exact parseExponent_no_bad e0 ps ‹_›
    | simp_all

theorem pfactorBranch_no_bad (e0 : WorktodoEntry) (ps m : List String)
    (res : Option WorktodoEntry) (h : pfactorBranch e0 ps = (m, res)) :
    "Bad PRP line (bad known factors part)" ∉ m := by
  unfold pfactorBranch at h
  dsimp only at h
  repeat' split at h
  all_goals simp only [Prod.mk.injEq] at h
  all_goals rw [← h.1]
  all_goals intro hmem
  all_goals try simp only [List.mem_append, List.mem_singleton] at hmem
  all_goals try casesm* _ ∨ _
  all_goals first
    | exact parseExponentOrKbnc_no_bad e0 ps ‹_›
    | exact parseFactoringOpts_no_bad _ _ ‹_›
    | simp_all

theorem pminus1Branch_no_bad (e0 : WorktodoEntry) (ps m : List String)
    (res : Option WorktodoEntry) (h : pminus1Branch e0 ps = (m, res)) :
    "Bad PRP line (bad known factors part)" ∉ m := by
  unfold pminus1Branch at h
  dsimp only at h
  repeat' split at h
  all_goals simp only [Prod.mk.injEq] at h
  all_goals rw [← h.1]
  all_goals intro hmem
  all_goals try simp only [List.mem_append, List.mem_singleton] at hmem
  all_goals try casesm* _ ∨ _
  all_goals first
    | exact parseKbnc_no_bad e0 ps ‹_›
    | exact parseFactoringOpts_no_bad _ _ ‹_›
    | simp_all [parsePartsFactors_msgs]

theorem prpBranch_no_bad (vf : Nat → List String → Bool) (e0 : WorktodoEntry)
    (ps m : List String) (h : prpBranch vf e0 ps = (m, none)) :
    "Bad PRP line (bad known factors part)" ∉ m := by
  unfold prpBranch at h
  dsimp only at h
  split at h
  · simp only [Prod.mk.injEq] at h
    rw [← h.1]
    exact parseKbnc_no_bad e0 ps
  · split at h
    · rename_i m2 heq
      simp only [Prod.mk.injEq] at h
      rw [← h.1]
      intro hmem
      rcases List.mem_append.mp hmem with hA | hB
      · exact parseKbnc_no_bad e0 ps hA
      · exact prpFactorsStep_none_no_bad _ _ _ _ heq hB
    · rename_i m2 e2 ps2 heq
      try dsimp only at h
      simp only [Prod.mk.injEq] at h
      obtain ⟨hm, h2⟩ := h
      rw [← hm]
      intro hmem
      rcases List.mem_append.mp hmem with hAB | hC
      · rcases List.mem_append.mp hAB with hA | hB
        · exact parseKbnc_no_bad e0 ps hA
        · rw [prpFactorsStep_some_msgs _ _ _ _ _ heq] at hB
          simp at hB
      · rcases htail : prpTail e2 ps2 with ⟨m3, r3⟩
        rw [htail] at hC h2
        dsimp only at hC h2
        subst h2
        exact prpTail_none_no_bad _ _ _ htail hC

theorem skip_unsupported_ne_bad (t0 : String) :
    "Skip unsupported test type: " ++ t0 ≠ "Bad PRP line (bad known factors part)" := by
  intro hEq
  have h2 := congrArg String.data hEq
  rw [String.data_append] at h2
  have h3 : 'S' :: ("kip unsupported test type: ".data ++ t0.data) =
      'B' :: "ad PRP line (bad known factors part)".data := h2
  simp at h3

/-- Claim C4 as amended: the decoder never rejects a line with the
"bad known factors" reason: the rejection is unreachable, because
`parsePartsFactors` returns false only on an empty token list and its PRP
call site guards the token count to 1, 3 or 5.  A last token that does not
parse as a quoted list is simply left unconsumed with `knownFactors` empty,
and the line continues through the remaining PRP checks. -/
theorem c4_amended_never_bad_known_factors (vf : Nat → List String → Bool)
    (line : String) (m : List String) (h : decodeLine vf line = (m, none)) :
    "Bad PRP line (bad known factors part)" ∉ m := by
  unfold decodeLine at h
  split at h
  · simp only [Prod.mk.injEq] at h
    rw [← h.1]
    simp
  · split at h
    · simp only [Prod.mk.injEq] at h
      rw [← h.1]
      simp
    · split at h
      · dsimp only at h
        split at h
        · split at h
          · exact pfactorBranch_no_bad _ _ _ _ h
          · split at h
            · exact pminus1Branch_no_bad _ _ _ _ h
            · split at h
              · exact llBranch_no_bad _ _ _ _ h
              · exact prpBranch_no_bad _ _ _ _ h
        · simp only [Prod.mk.injEq] at h
          rw [← h.1]
          intro hmem
          simp only [List.mem_singleton] at hmem
          exact skip_unsupported_ne_bad _ hmem.symm
      · simp only [Prod.mk.injEq] at h
        rw [← h.1]
        simp

/-- Witness for the amended claim C4: the skipped line PRP=1,2,89,1,0 is
rejected, but not with the bad-known-factors reason. -/
theorem c4_amended_never_bad_known_factors_witness :
    "Bad PRP line (bad known factors part)" ∉
      ["Skip unsupported PRP line (only Mersenne and Wagstaff supported)"] :=
  c4_amended_never_bad_known_factors (fun _ _ => false) "PRP=1,2,89,1,0" _ rfl

end Worktodo

